import Mathlib

set_option autoImplicit false

/-!
Shallow embedding of the Qt C bridge in
`v2/internal/frontend/desktop/qt/lib.cpp` / `lib.hpp`:
C-callable functions wrapping a QApplication, a top-level QWidget window
with a QVBoxLayout, and an embedded QWebEngineView.
-/

namespace WailsQt

/-! ## Qt window state flags (the Qt.WindowStates bitmask) -/

def WindowMinimized : Nat := 1
def WindowMaximized : Nat := 2
def WindowFullScreen : Nat := 4

/-! ## QUrl, QWebEngineView, QVBoxLayout, QWidget

Object identity (C++ pointer identity) is modelled with small `Nat`
identifiers where the code relies on it (the layout installed on the
window, the widgets added to the layout). -/

structure QUrl where
  url : String
  deriving DecidableEq, Repr

/-- The web view state the bridge manipulates: its identity and the URL
last passed to `load`. -/
structure QWebEngineView where
  viewId : Nat
  loadedUrl : Option QUrl
  deriving DecidableEq, Repr

def QWebEngineView.new (vid : Nat) : QWebEngineView :=
  { viewId := vid, loadedUrl := none }

def QWebEngineView.load (v : QWebEngineView) (u : QUrl) : QWebEngineView :=
  { v with loadedUrl := some u }

/-- QWebEngineView.reload re-fetches the current URL; it does not change
any state the model tracks. -/
def QWebEngineView.reload (v : QWebEngineView) : QWebEngineView := v

structure QVBoxLayout where
  layoutId : Nat
  marginLeft : Int
  marginTop : Int
  marginRight : Int
  marginBottom : Int
  spacing : Int
  widgetIds : List Nat
  deriving DecidableEq, Repr

def QVBoxLayout.setContentsMargins (l : QVBoxLayout) (left top right bottom : Int) :
    QVBoxLayout :=
  { l with marginLeft := left, marginTop := top,
           marginRight := right, marginBottom := bottom }

def QVBoxLayout.setSpacing (l : QVBoxLayout) (s : Int) : QVBoxLayout :=
  { l with spacing := s }

def QVBoxLayout.addWidget (l : QVBoxLayout) (wid : Nat) : QVBoxLayout :=
  { l with widgetIds := l.widgetIds ++ [wid] }

structure QWidget where
  title : String
  width : Int
  height : Int
  minWidth : Int
  minHeight : Int
  windowState : Nat
  visible : Bool
  layoutOf : Option Nat
  deriving DecidableEq, Repr

/-- A fresh top-level QWidget: empty title, default 640x480 geometry, no
minimum size, no window-state flags, not visible, no layout installed. -/
def QWidget.new : QWidget :=
  { title := "", width := 640, height := 480, minWidth := 0, minHeight := 0,
    windowState := 0, visible := false, layoutOf := none }

def QWidget.resize (w : QWidget) (x y : Int) : QWidget :=
  { w with width := x, height := y }

/-- QWidget.setMinimumSize also grows the current size if it is below the
new minimum. -/
def QWidget.setMinimumSize (w : QWidget) (mw mh : Int) : QWidget :=
  { w with minWidth := mw, minHeight := mh,
           width := max w.width mw, height := max w.height mh }

def QWidget.setWindowTitle (w : QWidget) (t : String) : QWidget :=
  { w with title := t }

def QWidget.setWindowState (w : QWidget) (s : Nat) : QWidget :=
  { w with windowState := s }

def QWidget.show (w : QWidget) : QWidget :=
  { w with visible := true }

/-- QWidget.showMinimized minimizes and shows the widget. -/
def QWidget.showMinimized (w : QWidget) : QWidget :=
  { w with windowState := w.windowState ||| WindowMinimized, visible := true }

/-- QWidget.showNormal clears the minimized, maximized and fullscreen
flags (bits 0 to 2) and shows the widget. -/
def QWidget.showNormal (w : QWidget) : QWidget :=
  { w with windowState := w.windowState - w.windowState % 8, visible := true }

def QWidget.close (w : QWidget) : QWidget :=
  { w with visible := false }

/-- Constructing a QVBoxLayout with a parent widget installs the layout
on that widget. The margin and spacing initial values are the Qt style
defaults; the bridge overwrites them immediately. -/
def QVBoxLayout.new (lid : Nat) (parent : QWidget) : QVBoxLayout × QWidget :=
  ({ layoutId := lid, marginLeft := 11, marginTop := 11, marginRight := 11,
     marginBottom := 11, spacing := 6, widgetIds := [] },
   { parent with layoutOf := some lid })

/-! ## QString.fromUtf8

Model of Qt's UTF-8 decoder: a C string is a list of byte values; invalid
bytes and malformed, overlong, surrogate or truncated sequences decode to
U+FFFD, and decoding resynchronizes after the offending lead byte. -/

def replacementChar : Char := Char.ofNat 0xFFFD

/-- Is `b` a UTF-8 continuation byte (0x80 to 0xBF)? -/
def isCont (b : Nat) : Bool := decide (0x80 ≤ b ∧ b < 0xC0)

/-- Allowed second byte of a three-byte sequence with lead `b1`
(excluding overlong encodings and surrogates). -/
def threeByteSnd (b1 b2 : Nat) : Bool :=
  if b1 = 0xE0 then decide (0xA0 ≤ b2 ∧ b2 < 0xC0)
  else if b1 = 0xED then decide (0x80 ≤ b2 ∧ b2 < 0xA0)
  else isCont b2

/-- Allowed second byte of a four-byte sequence with lead `b1`
(excluding overlong encodings and code points above U+10FFFF). -/
def fourByteSnd (b1 b2 : Nat) : Bool :=
  if b1 = 0xF0 then decide (0x90 ≤ b2 ∧ b2 < 0xC0)
  else if b1 = 0xF4 then decide (0x80 ≤ b2 ∧ b2 < 0x90)
  else isCont b2

def utf8Decode : List Nat → List Char
  | [] => []
  | b1 :: rest =>
    if b1 < 0x80 then
      Char.ofNat b1 :: utf8Decode rest
    else if b1 < 0xC2 then
      replacementChar :: utf8Decode rest
    else if b1 < 0xE0 then
      match rest with
      | b2 :: rest2 =>
        if isCont b2 then
          Char.ofNat ((b1 - 0xC0) * 0x40 + (b2 - 0x80)) :: utf8Decode rest2
        else replacementChar :: utf8Decode (b2 :: rest2)
      | [] => [replacementChar]
    else if b1 < 0xF0 then
      match rest with
      | b2 :: b3 :: rest3 =>
        if threeByteSnd b1 b2 && isCont b3 then
          Char.ofNat ((b1 - 0xE0) * 0x1000 + (b2 - 0x80) * 0x40 + (b3 - 0x80)) ::
            utf8Decode rest3
        else replacementChar :: utf8Decode (b2 :: b3 :: rest3)
      | [b2] => replacementChar :: utf8Decode [b2]
      | [] => [replacementChar]
    else if b1 < 0xF5 then
      match rest with
      | b2 :: b3 :: b4 :: rest4 =>
        if fourByteSnd b1 b2 && isCont b3 && isCont b4 then
          Char.ofNat ((b1 - 0xF0) * 0x40000 + (b2 - 0x80) * 0x1000 +
              (b3 - 0x80) * 0x40 + (b4 - 0x80)) :: utf8Decode rest4
        else replacementChar :: utf8Decode (b2 :: b3 :: b4 :: rest4)
      | [b2, b3] => replacementChar :: utf8Decode [b2, b3]
      | [b2] => replacementChar :: utf8Decode [b2]
      | [] => [replacementChar]
    else
      replacementChar :: utf8Decode rest
  termination_by l => l.length
  decreasing_by all_goals simp [List.length_cons] <;> omega

def QString.fromUtf8 (bytes : List Nat) : String :=
  String.mk (utf8Decode bytes)

/-! ## The Window struct and the Window_* bridge functions

`Window` is the C struct returned by `Window_new`: the window widget, its
layout and its web view. The state-level bridge functions below give the
effect of each C function's closure on the objects it touches; the
thread each closure runs on is treated separately by the trace model. -/

structure Window where
  window : QWidget
  window_layout : QVBoxLayout
  web_engine_view : QWebEngineView
  deriving DecidableEq, Repr

/-- The closure of Window_new: build an 800x600 widget with minimum size
320x240, install a QVBoxLayout with zero margins and spacing, add a
QWebEngineView loading the start URL, show the widget, and return the
Window struct. Fresh object identities: layout 0, view 1. -/
def Window_new (start_url : String) : Window :=
  let w := QWidget.new
  let w := w.resize 800 600
  let w := w.setMinimumSize 320 240
  let (layout, w) := QVBoxLayout.new 0 w
  let layout := layout.setContentsMargins 0 0 0 0
  let layout := layout.setSpacing 0
  let view := QWebEngineView.new 1
  let layout := layout.addWidget view.viewId
  let view := view.load (QUrl.mk start_url)
  let w := w.show
  { window := w, window_layout := layout, web_engine_view := view }

def Window_set_title (w : QWidget) (title : List Nat) : QWidget :=
  w.setWindowTitle (QString.fromUtf8 title)

def Window_set_minimum_size (w : QWidget) (width height : Int) : QWidget :=
  w.setMinimumSize width height

def Window_resize (w : QWidget) (width height : Int) : QWidget :=
  w.resize width height

def Window_hide (w : QWidget) : QWidget :=
  w.showMinimized

def Window_show (w : QWidget) : QWidget :=
  w.showNormal

def Window_fullscreen (w : QWidget) : QWidget :=
  w.setWindowState (w.windowState ^^^ WindowFullScreen)

def Window_maximize (w : QWidget) : QWidget :=
  w.setWindowState (w.windowState ^^^ WindowMaximized)

def Window_close (w : QWidget) : QWidget :=
  w.close

def WebEngineView_load_url (v : QWebEngineView) (url : String) : QWebEngineView :=
  v.load (QUrl.mk url)

def WebEngineView_reload (v : QWebEngineView) : QWebEngineView :=
  v.reload

/-! ## fix_signal

`struct sigaction` and the two `sigaction` calls of `fix_signal`. The
first call reads the current disposition; the second installs it with
SA_ONSTACK added to `sa_flags`. Failure of either syscall is an input to
the model (`readFails`, `setFails`), as is the `strerror(errno)` text.
The result is the new disposition table and the text written to stderr,
if any. -/

structure Sigaction where
  sa_handler : Nat
  sa_mask : Nat
  sa_flags : Nat
  deriving DecidableEq, Repr

def SA_ONSTACK : Nat := 0x08000000

def fix_signal_error_msg (signum : Nat) (err : String) : String :=
  "error fixing handler for signal " ++ toString signum ++
    ", please report this issue to https://github.com/wailsapp/wails: " ++
    err ++ "\n"

def fix_signal (disp : Nat → Sigaction) (signum : Nat)
    (readFails setFails : Bool) (err : String) :
    (Nat → Sigaction) × Option String :=
  if readFails then
    (disp, some (fix_signal_error_msg signum err))
  else
    let st := disp signum
    let st := { st with sa_flags := st.sa_flags ||| SA_ONSTACK }
    if setFails then
      (disp, some (fix_signal_error_msg signum err))
    else
      (fun s => if s = signum then st else disp s, none)

/-! ## QJson model

`Application_get_screens` builds its result with QJsonObject, QJsonArray
and QJsonDocument.toJson(Compact). Only the value kinds the bridge
creates are modelled: booleans, ints, arrays and objects. A QJsonObject
keeps its entries sorted by key; assignment inserts in key order and
replaces an existing entry. -/

inductive JsonVal where
  | jbool (b : Bool)
  | jint (n : Int)
  | jarr (elems : List JsonVal)
  | jobj (fields : List (String × JsonVal))
  deriving Repr

/-- QJsonObject assignment: insert `(key, v)` keeping the field list
sorted by key, replacing an existing entry for `key`. Keys are compared
lexicographically; `key.data < k.data` is exactly the order `key < k` on
strings, spelled on the character lists. -/
def objInsert (fields : List (String × JsonVal)) (key : String) (v : JsonVal) :
    List (String × JsonVal) :=
  match fields with
  | [] => [(key, v)]
  | (k, w) :: rest =>
    if key.data < k.data then (key, v) :: (k, w) :: rest
    else if key = k then (key, v) :: rest
    else (k, w) :: objInsert rest key v

def lookupKey (fields : List (String × JsonVal)) (key : String) : Option JsonVal :=
  match fields with
  | [] => none
  | (k, v) :: rest => if k = key then some v else lookupKey rest key

mutual

/-- QJsonDocument.toJson(QJsonDocument.Compact): no whitespace, object
fields in their stored (sorted) order. -/
def jsonSerialize : JsonVal → String
  | .jbool true => "true"
  | .jbool false => "false"
  | .jint n => toString n
  | .jarr xs => "[" ++ serializeElems xs ++ "]"
  | .jobj fs => "\x7b" ++ serializeFields fs ++ "\x7d"

def serializeElems : List JsonVal → String
  | [] => ""
  | [x] => jsonSerialize x
  | x :: y :: rest => jsonSerialize x ++ "," ++ serializeElems (y :: rest)

def serializeFields : List (String × JsonVal) → String
  | [] => ""
  | [(k, v)] => "\"" ++ k ++ "\":" ++ jsonSerialize v
  | (k, v) :: f :: rest =>
    "\"" ++ k ++ "\":" ++ jsonSerialize v ++ "," ++ serializeFields (f :: rest)

end

/-! ## Application_get_screens

A QScreen is identified by its pointer value and carries a logical size
and a physical size. The application state provides the screen list, the
primary screen pointer, and the screen of the focused widget's window
when a widget has focus. The local `QScreen *currentScreen` of the C++
function is NOT initialized; when no widget has focus it is read with
its indeterminate stack value, which the model takes as an explicit
input `uninit`. -/

structure QScreen where
  screenPtr : Nat
  width : Int
  height : Int
  physicalWidth : Int
  physicalHeight : Int
  deriving DecidableEq, Repr

structure AppState where
  screens : List QScreen
  primaryScreen : Nat
  focusedScreen : Option Nat
  deriving Repr

/-- Value of the local `currentScreen` when the loop reads it: the
focused widget's screen if a widget has focus, otherwise the
indeterminate value left on the stack (undefined behaviour in C++). -/
def currentScreenPtr (st : AppState) (uninit : Nat) : Nat :=
  match st.focusedScreen with
  | some p => p
  | none => uninit

set_option linter.unusedVariables false in
/-- The loop body of Application_get_screens: the JSON object built for
one screen. Mirrors the source assignments in order; note the source
assigns `size` (not the computed `physicalSize` object) to the
"physicalSize" member. -/
def screenObj (current primary : Nat) (sc : QScreen) : List (String × JsonVal) :=
  let s : List (String × JsonVal) := []
  let s := objInsert s "isCurrent" (.jbool (current == sc.screenPtr))
  let s := objInsert s "isPrimary" (.jbool (primary == sc.screenPtr))
  let s := objInsert s "width" (.jint sc.width)
  let s := objInsert s "height" (.jint sc.height)
  let size := objInsert (objInsert [] "width" (.jint sc.width)) "height" (.jint sc.height)
  let s := objInsert s "size" (.jobj size)
  let physicalSize :=
    objInsert (objInsert [] "width" (.jint sc.physicalWidth)) "height" (.jint sc.physicalHeight)
  let s := objInsert s "physicalSize" (.jobj size)
  s

/-- Application_get_screens: one JSON object per screen, serialized
compactly. -/
def Application_get_screens (st : AppState) (uninit : Nat) : String :=
  jsonSerialize (.jarr (st.screens.map (fun sc =>
    .jobj (screenObj (currentScreenPtr st uninit) st.primaryScreen sc))))

/-! ## Thread traces

util.hpp (not part of the bridge sources) provides runOnAppThread. Each
bridge function calls it with a closure holding the toolkit calls. The
trace of a bridge function records which thread performs each toolkit
call. -/

inductive Thread where
  | caller
  | ui
  deriving DecidableEq, Repr

/-- The toolkit calls the bridge closures perform. -/
inductive GuiCall where
  | appQuit
  | appGetScreens
  | newWindow (start_url : String)
  | setTitle (title : String)
  | setMinSize (width height : Int)
  | resizeWin (width height : Int)
  | showMin
  | showNorm
  | toggleFullScreen
  | toggleMaximized
  | closeWin
  | loadUrl (url : String)
  | reloadView
  | runJs (script : String)
  deriving DecidableEq, Repr

/-- Modelled from the spec: runOnAppThread lives in util.hpp, which is
not among the bridge sources; per the spec the bridge's job is
"marshaling calls across a language boundary and hopping onto the
correct UI thread", so runOnAppThread executes the given closure's
toolkit calls on the application's UI thread (and not on the caller's
thread). -/
def runOnAppThread (calls : List GuiCall) : List (Thread × GuiCall) :=
  calls.map (fun c => (Thread.ui, c))

def Application_quit_trace : List (Thread × GuiCall) :=
  runOnAppThread [GuiCall.appQuit]

def Application_get_screens_trace : List (Thread × GuiCall) :=
  runOnAppThread [GuiCall.appGetScreens]

def Window_new_trace (start_url : String) : List (Thread × GuiCall) :=
  runOnAppThread [GuiCall.newWindow start_url]

def Window_set_title_trace (title : String) : List (Thread × GuiCall) :=
  runOnAppThread [GuiCall.setTitle title]

def Window_set_minimum_size_trace (width height : Int) : List (Thread × GuiCall) :=
  runOnAppThread [GuiCall.setMinSize width height]

def Window_resize_trace (width height : Int) : List (Thread × GuiCall) :=
  runOnAppThread [GuiCall.resizeWin width height]

def Window_hide_trace : List (Thread × GuiCall) :=
  runOnAppThread [GuiCall.showMin]

def Window_show_trace : List (Thread × GuiCall) :=
  runOnAppThread [GuiCall.showNorm]

def Window_fullscreen_trace : List (Thread × GuiCall) :=
  runOnAppThread [GuiCall.toggleFullScreen]

def Window_maximize_trace : List (Thread × GuiCall) :=
  runOnAppThread [GuiCall.toggleMaximized]

def Window_close_trace : List (Thread × GuiCall) :=
  runOnAppThread [GuiCall.closeWin]

def WebEngineView_load_url_trace (url : String) : List (Thread × GuiCall) :=
  runOnAppThread [GuiCall.loadUrl url]

def WebEngineView_reload_trace : List (Thread × GuiCall) :=
  runOnAppThread [GuiCall.reloadView]

def WebEngineView_run_js_trace (script : String) : List (Thread × GuiCall) :=
  runOnAppThread [GuiCall.runJs script]

/-- Does every recorded toolkit call run on the UI thread? -/
def onUiThread (t : List (Thread × GuiCall)) : Bool :=
  t.all (fun p => match p.1 with | Thread.ui => true | Thread.caller => false)

/-! ## The C interface inventory

The functions declared in lib.hpp and the functions defined in lib.cpp,
by name. `appExited` is declared `extern`: it is the callback the host
provides, not a bridge function. -/

def headerDeclaredFunctions : List String :=
  ["appExited",
   "Application_new", "Application_exec", "Application_quit",
   "Application_get_screens",
   "Window_new", "Window_set_title", "Window_resize",
   "Window_set_minimum_size", "Window_hide", "Window_show",
   "Window_fullscreen", "Window_maximize", "Window_close",
   "WebEngineView_load_url", "WebEngineView_reload", "WebEngineView_run_js",
   "fix_signal", "install_signal_handlers", "bye"]

def bridgeDefinedFunctions : List String :=
  ["Application_new", "Application_quit", "Application_get_screens",
   "Window_new", "Window_set_title", "Window_set_minimum_size",
   "Window_resize", "Window_hide", "Window_show",
   "Window_fullscreen", "Window_maximize", "Window_close",
   "WebEngineView_load_url", "WebEngineView_reload", "WebEngineView_run_js",
   "fix_signal", "install_signal_handlers", "bye"]

/-! ## Helper lemmas -/

theorem testBit_or_onstack (x i : Nat) :
    (x ||| SA_ONSTACK).testBit i = (x.testBit i || decide (i = 27)) := by
  have h : SA_ONSTACK = 2 ^ 27 := by norm_num [SA_ONSTACK]
  rw [h, Nat.testBit_or]
  rcases eq_or_ne i 27 with hi | hi
  · subst hi; rw [Nat.testBit_two_pow_self]; simp
  · rw [Nat.testBit_two_pow_of_ne (Ne.symm hi)]; simp [hi]

theorem testBit_xor_two_pow (x n i : Nat) :
    (x ^^^ 2 ^ n).testBit i = ((x.testBit i).xor (decide (i = n))) := by
  rw [Nat.testBit_xor]
  rcases eq_or_ne i n with hi | hi
  · subst hi; rw [Nat.testBit_two_pow_self]; simp
  · rw [Nat.testBit_two_pow_of_ne (Ne.symm hi)]; simp [hi]

/-- The object the loop builds for one screen, written out: QJsonObject
keeps its six members sorted by key, "physicalSize" holds the same
object as "size", and "width"/"height" are the screen's logical size. -/
theorem screenObj_eq (current primary : Nat) (sc : QScreen) :
    screenObj current primary sc =
      [("height", .jint sc.height),
       ("isCurrent", .jbool (current == sc.screenPtr)),
       ("isPrimary", .jbool (primary == sc.screenPtr)),
       ("physicalSize", .jobj [("height", .jint sc.height), ("width", .jint sc.width)]),
       ("size", .jobj [("height", .jint sc.height), ("width", .jint sc.width)]),
       ("width", .jint sc.width)] := rfl

/-- Concrete screen used to evaluate Application_get_screens at an input
where no widget has focus. -/
def c6_screen : QScreen :=
  { screenPtr := 1, width := 1920, height := 1080,
    physicalWidth := 598, physicalHeight := 336 }

/-- Application state with a single screen (pointer value 1, also the
primary screen) and no focused widget. -/
def c6_app : AppState :=
  { screens := [c6_screen], primaryScreen := 1, focusedScreen := none }

/-! ## Claim theorems -/

/-- C1: For every start URL, Window_new returns a Window whose widget has
the layout installed and whose layout, with zero margins and spacing,
contains the web view; the view is loading the start URL, the widget is
800x600 with minimum size 320x240, and the window is shown. -/
theorem window_new_builds_shown_webview_window (start_url : String) :
    (Window_new start_url).window.layoutOf =
      some (Window_new start_url).window_layout.layoutId ∧
    (Window_new start_url).window_layout.widgetIds =
      [(Window_new start_url).web_engine_view.viewId] ∧
    (Window_new start_url).window_layout.marginLeft = 0 ∧
    (Window_new start_url).window_layout.marginTop = 0 ∧
    (Window_new start_url).window_layout.marginRight = 0 ∧
    (Window_new start_url).window_layout.marginBottom = 0 ∧
    (Window_new start_url).window_layout.spacing = 0 ∧
    (Window_new start_url).web_engine_view.loadedUrl = some (QUrl.mk start_url) ∧
    (Window_new start_url).window.width = 800 ∧
    (Window_new start_url).window.height = 600 ∧
    (Window_new start_url).window.minWidth = 320 ∧
    (Window_new start_url).window.minHeight = 240 ∧
    (Window_new start_url).window.visible = true := by
  refine ⟨rfl, rfl, rfl, rfl, rfl, rfl, rfl, rfl, ?_, ?_, rfl, rfl, rfl⟩ <;>
    simp [Window_new, QWidget.new, QWidget.resize, QWidget.setMinimumSize,
      QVBoxLayout.new, QWidget.show]

/-- C2: every exposed application, window and web-view operation performs
its toolkit call through runOnAppThread, so every call in its trace runs
on the UI thread and none on the caller's thread. -/
theorem all_bridge_calls_on_ui_thread (url starturl title script : String)
    (rw rh mw mh : Int) :
    onUiThread Application_quit_trace = true ∧
    onUiThread Application_get_screens_trace = true ∧
    onUiThread (Window_new_trace starturl) = true ∧
    onUiThread (Window_set_title_trace title) = true ∧
    onUiThread (Window_set_minimum_size_trace mw mh) = true ∧
    onUiThread (Window_resize_trace rw rh) = true ∧
    onUiThread Window_hide_trace = true ∧
    onUiThread Window_show_trace = true ∧
    onUiThread Window_fullscreen_trace = true ∧
    onUiThread Window_maximize_trace = true ∧
    onUiThread Window_close_trace = true ∧
    onUiThread (WebEngineView_load_url_trace url) = true ∧
    onUiThread WebEngineView_reload_trace = true ∧
    onUiThread (WebEngineView_run_js_trace script) = true :=
  ⟨rfl, rfl, rfl, rfl, rfl, rfl, rfl, rfl, rfl, rfl, rfl, rfl, rfl, rfl⟩

/-- C7: for every disposition table and signal, when both sigaction calls
succeed, fix_signal installs the previous disposition with SA_ONSTACK
added to sa_flags: the handler, the mask and every other flag bit are
unchanged, other signals are untouched, and nothing is written to
stderr. -/
theorem fix_signal_success_adds_onstack (disp : Nat → Sigaction)
    (signum : Nat) (err : String) :
    (fix_signal disp signum false false err).2 = none ∧
    (∀ s : Nat, (fix_signal disp signum false false err).1 s =
      if s = signum then
        { disp signum with sa_flags := (disp signum).sa_flags ||| SA_ONSTACK }
      else disp s) ∧
    ((fix_signal disp signum false false err).1 signum).sa_handler =
      (disp signum).sa_handler ∧
    ((fix_signal disp signum false false err).1 signum).sa_mask =
      (disp signum).sa_mask ∧
    (∀ i : Nat, ((fix_signal disp signum false false err).1 signum).sa_flags.testBit i =
      ((disp signum).sa_flags.testBit i || decide (i = 27))) := by
  refine ⟨rfl, fun s => rfl, ?_, ?_, fun i => ?_⟩
  · simp [fix_signal]
  · simp [fix_signal]
  · have hfl : ((fix_signal disp signum false false err).1 signum).sa_flags =
        (disp signum).sa_flags ||| SA_ONSTACK := by simp [fix_signal]
    rw [hfl, testBit_or_onstack]

/-- C8: for every disposition table and signal, if the first sigaction
call fails (whatever the second would do), or the first succeeds and the
second fails, fix_signal writes the error message to stderr and the
disposition table is unchanged. -/
theorem fix_signal_failure_leaves_disposition (disp : Nat → Sigaction)
    (signum : Nat) (err : String) (setFails : Bool) :
    fix_signal disp signum true setFails err =
      (disp, some (fix_signal_error_msg signum err)) ∧
    fix_signal disp signum false true err =
      (disp, some (fix_signal_error_msg signum err)) :=
  ⟨rfl, rfl⟩

/-- C9: Window_set_title sets the widget's title to the UTF-8 decoding of
the argument bytes and changes nothing else: size, minimum size, window
state, visibility and the installed layout (hence the web view) are
untouched. -/
theorem set_title_sets_only_title (w : QWidget) (title : List Nat) :
    (Window_set_title w title).title = QString.fromUtf8 title ∧
    (Window_set_title w title).width = w.width ∧
    (Window_set_title w title).height = w.height ∧
    (Window_set_title w title).minWidth = w.minWidth ∧
    (Window_set_title w title).minHeight = w.minHeight ∧
    (Window_set_title w title).windowState = w.windowState ∧
    (Window_set_title w title).visible = w.visible ∧
    (Window_set_title w title).layoutOf = w.layoutOf ∧
    Window_set_title w title = { w with title := QString.fromUtf8 title } :=
  ⟨rfl, rfl, rfl, rfl, rfl, rfl, rfl, rfl, rfl⟩

/-- C10: the XOR window-state update of Window_fullscreen is an
involution and a single application flips exactly the fullscreen flag
(bit 2); likewise Window_maximize for the maximized flag (bit 1). -/
theorem fullscreen_maximize_xor_involution (w : QWidget) :
    Window_fullscreen (Window_fullscreen w) = w ∧
    Window_maximize (Window_maximize w) = w ∧
    (∀ i : Nat, (Window_fullscreen w).windowState.testBit i =
      ((w.windowState.testBit i).xor (decide (i = 2)))) ∧
    (∀ i : Nat, (Window_maximize w).windowState.testBit i =
      ((w.windowState.testBit i).xor (decide (i = 1)))) := by
  have h4 : WindowFullScreen = 2 ^ 2 := by norm_num [WindowFullScreen]
  have h2 : WindowMaximized = 2 ^ 1 := by norm_num [WindowMaximized]
  refine ⟨?_, ?_, fun i => ?_, fun i => ?_⟩
  · cases w
    simp [Window_fullscreen, QWidget.setWindowState, Nat.xor_cancel_right]
  · cases w
    simp [Window_maximize, QWidget.setWindowState, Nat.xor_cancel_right]
  · rw [show (Window_fullscreen w).windowState =
        w.windowState ^^^ WindowFullScreen from rfl, h4, testBit_xor_two_pow]
  · rw [show (Window_maximize w).windowState =
        w.windowState ^^^ WindowMaximized from rfl, h2, testBit_xor_two_pow]

/-- C3: for every application state (and any indeterminate value of the
uninitialized local), Application_get_screens returns the compact JSON
serialization of an array with exactly one object per screen; each object
has members isCurrent, isPrimary, width, height, size (an object with
width and height) and physicalSize, and width/height equal the screen's
size. -/
theorem get_screens_compact_json_shape (st : AppState) (uninit : Nat) :
    (st.screens.map (fun sc =>
        JsonVal.jobj (screenObj (currentScreenPtr st uninit) st.primaryScreen sc))).length
      = st.screens.length ∧
    Application_get_screens st uninit =
      jsonSerialize (.jarr (st.screens.map (fun sc =>
        JsonVal.jobj
          [("height", .jint sc.height),
           ("isCurrent", .jbool (currentScreenPtr st uninit == sc.screenPtr)),
           ("isPrimary", .jbool (st.primaryScreen == sc.screenPtr)),
           ("physicalSize", .jobj [("height", .jint sc.height), ("width", .jint sc.width)]),
           ("size", .jobj [("height", .jint sc.height), ("width", .jint sc.width)]),
           ("width", .jint sc.width)]))) ∧
    (∀ current primary : Nat, ∀ sc : QScreen,
      lookupKey (screenObj current primary sc) "isCurrent" =
        some (.jbool (current == sc.screenPtr)) ∧
      lookupKey (screenObj current primary sc) "isPrimary" =
        some (.jbool (primary == sc.screenPtr)) ∧
      lookupKey (screenObj current primary sc) "width" = some (.jint sc.width) ∧
      lookupKey (screenObj current primary sc) "height" = some (.jint sc.height) ∧
      lookupKey (screenObj current primary sc) "size" =
        some (.jobj [("height", .jint sc.height), ("width", .jint sc.width)]) ∧
      lookupKey (screenObj current primary sc) "physicalSize" =
        some (.jobj [("height", .jint sc.height), ("width", .jint sc.width)])) := by
  refine ⟨by simp, ?_, fun current primary sc => ?_⟩
  · have hmap :
        st.screens.map (fun sc =>
          JsonVal.jobj (screenObj (currentScreenPtr st uninit) st.primaryScreen sc)) =
        st.screens.map (fun sc =>
          JsonVal.jobj
            [("height", .jint sc.height),
             ("isCurrent", .jbool (currentScreenPtr st uninit == sc.screenPtr)),
             ("isPrimary", .jbool (st.primaryScreen == sc.screenPtr)),
             ("physicalSize", .jobj [("height", .jint sc.height), ("width", .jint sc.width)]),
             ("size", .jobj [("height", .jint sc.height), ("width", .jint sc.width)]),
             ("width", .jint sc.width)]) :=
      List.map_congr_left fun sc _ => by rw [screenObj_eq]
    unfold Application_get_screens
    rw [hmap]
  · rw [screenObj_eq]
    exact ⟨rfl, rfl, rfl, rfl, rfl, rfl⟩

/-- C5: the "physicalSize" member of every screen object is the very
"size" object (logical pixels), and the physical size read from the
screen never reaches the result: the output is unchanged under arbitrary
rewrites of every screen's physical size. -/
theorem physical_size_member_is_size (st : AppState) (uninit : Nat)
    (f g : QScreen → Int) :
    Application_get_screens
        { st with screens := st.screens.map (fun sc =>
            { sc with physicalWidth := f sc, physicalHeight := g sc }) } uninit =
      Application_get_screens st uninit ∧
    (∀ current primary : Nat, ∀ sc : QScreen,
      lookupKey (screenObj current primary sc) "physicalSize" =
        lookupKey (screenObj current primary sc) "size") := by
  constructor
  · unfold Application_get_screens
    rw [List.map_map]
    have hmap :
        st.screens.map ((fun sc =>
            JsonVal.jobj (screenObj
              (currentScreenPtr
                { st with screens := st.screens.map (fun sc =>
                    { sc with physicalWidth := f sc, physicalHeight := g sc }) } uninit)
              st.primaryScreen sc)) ∘
          (fun sc => { sc with physicalWidth := f sc, physicalHeight := g sc })) =
        st.screens.map (fun sc =>
          JsonVal.jobj (screenObj (currentScreenPtr st uninit) st.primaryScreen sc)) :=
      List.map_congr_left fun sc _ => rfl
    rw [hmap]
  · intro current primary sc
    rw [screenObj_eq]
    rfl

/-- C6: at the concrete input with no focused widget (focusWidget null),
one screen with pointer value 1, the isCurrent member is whatever the
comparison against the indeterminate value of the uninitialized local
currentScreen yields: true when that value is 1, false when it is 2, and
the returned JSON differs between the two runs — it is not the
well-defined false the claim states. -/
theorem uninit_current_screen_decides_isCurrent :
    c6_app.focusedScreen = none ∧
    lookupKey (screenObj (currentScreenPtr c6_app 1) c6_app.primaryScreen c6_screen)
        "isCurrent" = some (.jbool true) ∧
    lookupKey (screenObj (currentScreenPtr c6_app 2) c6_app.primaryScreen c6_screen)
        "isCurrent" = some (.jbool false) ∧
    Application_get_screens c6_app 1 =
      "[\x7b\"height\":1080,\"isCurrent\":true,\"isPrimary\":true,\"physicalSize\":\x7b\"height\":1080,\"width\":1920\x7d,\"size\":\x7b\"height\":1080,\"width\":1920\x7d,\"width\":1920\x7d]" ∧
    Application_get_screens c6_app 2 =
      "[\x7b\"height\":1080,\"isCurrent\":false,\"isPrimary\":true,\"physicalSize\":\x7b\"height\":1080,\"width\":1920\x7d,\"size\":\x7b\"height\":1080,\"width\":1920\x7d,\"width\":1920\x7d]" ∧
    Application_get_screens c6_app 1 ≠ Application_get_screens c6_app 2 := by
  refine ⟨rfl, rfl, rfl, rfl, rfl, ?_⟩
  intro h
  exact absurd h (by decide)

/-- C4 (counterexample): Application_exec is declared in lib.hpp but has
no definition in lib.cpp, so not every declared function is defined by
the bridge. -/
theorem application_exec_declared_not_defined :
    "Application_exec" ∈ headerDeclaredFunctions ∧
    "Application_exec" ∉ bridgeDefinedFunctions := by
  constructor
  · decide
  · decide

/-- C4 (amended): every function declared in lib.hpp, apart from the
host-provided callback appExited and the never-defined Application_exec,
has a definition in lib.cpp. -/
theorem declared_functions_defined_except_exec (f : String)
    (hf : f ∈ headerDeclaredFunctions)
    (h1 : f ≠ "Application_exec") (h2 : f ≠ "appExited") :
    f ∈ bridgeDefinedFunctions := by
  fin_cases hf <;> simp_all <;> decide

/-- Witness for the amended C4 theorem at the concrete function name
Window_new. -/
theorem declared_functions_defined_witness :
    ("Window_new" : String) ∈ headerDeclaredFunctions ∧
    ("Window_new" : String) ∈ bridgeDefinedFunctions :=
  ⟨by decide,
   declared_functions_defined_except_exec "Window_new" (by decide) (by decide) (by decide)⟩

end WailsQt
